import Mathlib

/-!
Shallow embedding of the access-control and resolution core of the API-Hub
backend (`src/backend/src/middleware/apiKeyAuth.js` and
`src/backend/src/services/accessibilityService.js`), together with the
storage constraints declared in `src/backend/database/schema_api_keys.sql`.

The external store (Supabase) is modelled as explicit in-memory collections;
each table row is a Lean structure whose fields mirror the columns the code
reads or writes.  JavaScript values appearing in update payloads and stored
configuration columns are modelled by `JsVal`, which distinguishes
`undefined` from `null` because the code does (`!== undefined` filtering,
`??` defaulting).  Timestamp columns (`created_at`, `updated_at`,
`last_used_at`) are server bookkeeping that no modelled result depends on;
they are omitted from the row structures and noted where the code writes
them.
-/

/-- A JavaScript value as it appears in request payloads and stored rows. -/
inductive JsVal where
  | undef : JsVal
  | jnull : JsVal
  | jbool : Bool → JsVal
  | jnum : Int → JsVal
  | jstr : String → JsVal
  deriving DecidableEq, Repr

/-- Property access `obj[key]` on a JS object modelled as an association
list: a missing key reads as `undefined`. -/
def jsGet (obj : List (String × JsVal)) (key : String) : JsVal :=
  match obj.find? (fun p => p.1 = key) with
  | some p => p.2
  | none => JsVal.undef

/-- A row of `public.api_keys` (schema_api_keys.sql): the columns the
middleware selects (`id, user_id, is_active`), the lookup key `api_key`,
and the `expires_at` column the schema declares.  `created_at`,
`last_used_at` and `name` are not read by the middleware and are omitted
(the fire-and-forget `last_used_at` write never affects the result). -/
structure ApiKeyRow where
  id : String
  api_key : String
  user_id : String
  is_active : Bool
  expires_at : Option Int
  deriving DecidableEq, Repr

/-- Outcome of the API-key authentication middleware, one constructor per
distinct response it can send plus the success path (attaching
`req.user = { userId, apiKeyId }` and calling `next()`). -/
inductive AuthResult where
  | missingCredential : AuthResult
  | invalidCredential : AuthResult
  | disabledCredential : AuthResult
  | resolverUnavailable : AuthResult
  | ok : String → String → AuthResult
  deriving DecidableEq, Repr

/-- The credentials collection as seen by one lookup: `Except.error`
models an underlying storage error (any Supabase error other than
PGRST116), `Except.ok rows` a reachable table.  The middleware's
`.single()` lookup yields PGRST116 exactly when no row matches. -/
def apiKeyAuth (apiKey : Option String) (db : Except Unit (List ApiKeyRow)) :
    AuthResult :=
  match apiKey with
  | none => AuthResult.missingCredential
  | some k =>
    if k = "" then AuthResult.missingCredential
    else
      match db with
      | Except.error _ => AuthResult.resolverUnavailable
      | Except.ok rows =>
        match rows.find? (fun r => r.api_key = k) with
        | none => AuthResult.invalidCredential
        | some r =>
          if r.is_active then AuthResult.ok r.user_id r.id
          else AuthResult.disabledCredential

/-- A row of `public.sites`: surrogate primary key `id` (UUID, modelled as
a `Nat` drawn from the store's generator), caller-supplied `site_id`, and
owning `user_id`.  The schema declares `site_id TEXT UNIQUE` — unique on
its own, not per user. -/
structure SiteRow where
  id : Nat
  site_id : String
  user_id : String
  deriving DecidableEq, Repr

/-- A row of `public.site_configs` as the service uses it: `site_id` holds
the owning site's surrogate key (`sites.id`) and there is one row per
site.  The seven configuration columns are stored `JsVal`s (a column may
hold SQL NULL, which reads back as JS `null`). -/
structure ConfigRow where
  site_id : Nat
  cursor_mode_enabled : JsVal
  cursor_speed : JsVal
  scroll_speed : JsVal
  accessibility_profile : JsVal
  enter_hold_ms : JsVal
  exit_hold_ms : JsVal
  click_cooldown_ms : JsVal
  deriving DecidableEq, Repr

/-- The sites+configs store: the two tables plus the surrogate-key
generator (`gen_random_uuid()` modelled as a counter). -/
structure Store where
  sites : List SiteRow
  site_configs : List ConfigRow
  nextId : Nat
  deriving DecidableEq, Repr

/-- Store wellformedness: facts guaranteed by the schema and the id
generator — surrogate keys were issued by the generator and are primary
keys, `site_id` is globally unique (`UNIQUE` in the schema), each config
row points at an existing site and at most one config exists per
surrogate key (`UNIQUE` on `site_configs.site_id`). -/
def Store.WF (s : Store) : Prop :=
  (∀ r ∈ s.sites, r.id < s.nextId) ∧
  (∀ r ∈ s.sites, ∀ r' ∈ s.sites, r.id = r'.id → r = r') ∧
  (∀ r ∈ s.sites, ∀ r' ∈ s.sites, r.site_id = r'.site_id → r = r') ∧
  (∀ c ∈ s.site_configs, ∃ r ∈ s.sites, c.site_id = r.id) ∧
  (∀ c ∈ s.site_configs, ∀ c' ∈ s.site_configs, c.site_id = c'.site_id → c = c')

instance (s : Store) : Decidable s.WF := by
  unfold Store.WF; infer_instance

/-- The seven-field configuration object produced by `_normalizeConfig`
and returned to callers. -/
structure NormalizedConfig where
  cursor_mode_enabled : JsVal
  cursor_speed : JsVal
  scroll_speed : JsVal
  accessibility_profile : JsVal
  enter_hold_ms : JsVal
  exit_hold_ms : JsVal
  click_cooldown_ms : JsVal
  deriving DecidableEq, Repr

/-- JS nullish coalescing `v ?? d`: the default replaces `null` and
`undefined` only. -/
def nullish (v d : JsVal) : JsVal :=
  match v with
  | JsVal.undef => d
  | JsVal.jnull => d
  | x => x

/-- `_normalizeConfig`: project the seven fields, substituting the
documented default for a nullish stored value. -/
def _normalizeConfig (c : ConfigRow) : NormalizedConfig :=
  { cursor_mode_enabled := nullish c.cursor_mode_enabled (JsVal.jbool false)
    cursor_speed := nullish c.cursor_speed (JsVal.jnum 10)
    scroll_speed := nullish c.scroll_speed (JsVal.jnum 10)
    accessibility_profile := nullish c.accessibility_profile (JsVal.jstr "standard")
    enter_hold_ms := nullish c.enter_hold_ms (JsVal.jnum 1000)
    exit_hold_ms := nullish c.exit_hold_ms (JsVal.jnum 800)
    click_cooldown_ms := nullish c.click_cooldown_ms (JsVal.jnum 300) }

/-- Success payload of the two service operations:
`{ site_id, config }`. -/
structure ConfigResult where
  site_id : String
  config : NormalizedConfig
  deriving DecidableEq, Repr

/-- Message Postgres/Supabase reports when an INSERT hits the schema's
`UNIQUE (site_id)` constraint on `public.sites`, as surfaced by
`_resolveSite`'s `Failed to create site: ...` wrapper. -/
def siteUniqueViolationMsg : String :=
  "Failed to create site: duplicate key value violates unique constraint \"sites_site_id_key\""

/-- `_resolveSite`: look up `(site_id, user_id)` with `.maybeSingle()`;
if absent, INSERT a new row and return its generated surrogate key.
The two store arguments are the snapshots seen by the lookup and by the
insert; sequential execution passes the same store twice, and a
concurrent writer between the two round-trips is modelled by passing
different snapshots.  The INSERT fails exactly when the schema's
`UNIQUE (site_id)` constraint rejects it; the code wraps the error and
throws — there is no second lookup on that path. -/
def _resolveSite (siteId userId : String) (sLookup sInsert : Store) :
    Except String (Nat × Store) :=
  match sLookup.sites.find? (fun r => r.site_id = siteId && r.user_id = userId) with
  | some row => Except.ok (row.id, sInsert)
  | none =>
    if sInsert.sites.any (fun r => r.site_id = siteId) then
      Except.error siteUniqueViolationMsg
    else
      Except.ok (sInsert.nextId,
        { sInsert with
          sites := sInsert.sites ++ [⟨sInsert.nextId, siteId, userId⟩]
          nextId := sInsert.nextId + 1 })

/-- The default row `_resolveSiteConfig` inserts on first touch of a
site (its seven fields and the owning surrogate key; `created_at` and
`updated_at` are set by column defaults and omitted here). -/
def defaultConfig (siteUuid : Nat) : ConfigRow :=
  { site_id := siteUuid
    cursor_mode_enabled := JsVal.jbool false
    cursor_speed := JsVal.jnum 10
    scroll_speed := JsVal.jnum 10
    accessibility_profile := JsVal.jstr "standard"
    enter_hold_ms := JsVal.jnum 1000
    exit_hold_ms := JsVal.jnum 800
    click_cooldown_ms := JsVal.jnum 300 }

/-- `_resolveSiteConfig`: fetch the config row keyed by the surrogate
key with `.maybeSingle()`; if absent, INSERT the defaults.  Run against
a single consistent snapshot the insert cannot hit the `UNIQUE`
constraint (the matching row was just seen to be absent), so the model
is total. -/
def _resolveSiteConfig (siteUuid : Nat) (s : Store) : ConfigRow × Store :=
  match s.site_configs.find? (fun c => c.site_id = siteUuid) with
  | some c => (c, s)
  | none =>
    (defaultConfig siteUuid,
     { s with site_configs := s.site_configs ++ [defaultConfig siteUuid] })

/-- `getConfigBySiteId` (the `resolveConfig` operation): validate inputs,
resolve the site (get or create), resolve its config (get or create),
normalize.  A thrown error becomes `{ success:false, error }`, modelled
as `Except.error message`.  An absent/empty `siteId` or `userId` fails
the JS truthiness checks and throws before any storage access. -/
def getConfigBySiteId (siteId userId : String) (s : Store) :
    Except String ConfigResult × Store :=
  if siteId = "" then
    (Except.error "Invalid siteId: must be a non-empty string", s)
  else if userId = "" then
    (Except.error "Invalid userId: user authentication required", s)
  else
    match _resolveSite siteId userId s s with
    | Except.error e => (Except.error e, s)
    | Except.ok (uuid, s1) =>
      let r := _resolveSiteConfig uuid s1
      (Except.ok { site_id := siteId, config := _normalizeConfig r.1 }, r.2)

/-- Storage round-trips performed by `updateConfig`, in order: the site
ownership SELECT and the config UPDATE statement. -/
inductive DbEvent where
  | readSites : DbEvent
  | writeConfigs : DbEvent
  deriving DecidableEq, Repr

/-- The whitelist of updatable fields (`allowedFields` in the source). -/
def allowedFields : List String :=
  ["cursor_mode_enabled", "cursor_speed", "scroll_speed",
   "accessibility_profile", "enter_hold_ms", "exit_hold_ms",
   "click_cooldown_ms"]

/-- The whitelisted keys that survive the `updates[key] !== undefined`
filter (the keys of `sanitizedUpdates`). -/
def sanitizedKeys (updates : List (String × JsVal)) : List String :=
  allowedFields.filter (fun key => jsGet updates key != JsVal.undef)

/-- Overwrite one named column of a config row. -/
def setField (c : ConfigRow) (key : String) (v : JsVal) : ConfigRow :=
  if key = "cursor_mode_enabled" then { c with cursor_mode_enabled := v }
  else if key = "cursor_speed" then { c with cursor_speed := v }
  else if key = "scroll_speed" then { c with scroll_speed := v }
  else if key = "accessibility_profile" then { c with accessibility_profile := v }
  else if key = "enter_hold_ms" then { c with enter_hold_ms := v }
  else if key = "exit_hold_ms" then { c with exit_hold_ms := v }
  else if key = "click_cooldown_ms" then { c with click_cooldown_ms := v }
  else c

/-- Apply `sanitizedUpdates` to a stored row: for each whitelisted field
supplied with a non-`undefined` value, store that value verbatim.
(The source also sets `updated_at`, a timestamp column omitted from the
model.) -/
def applySanitized (c : ConfigRow) (updates : List (String × JsVal)) : ConfigRow :=
  allowedFields.foldl
    (fun acc key =>
      match jsGet updates key with
      | JsVal.undef => acc
      | v => setField acc key v)
    c

/-- `updateConfig`: validate inputs, verify the site exists for this
caller with `.single()` (PGRST116 → "Site not found or access denied"),
whitelist-filter the payload, reject an empty remainder, then UPDATE the
config row keyed by the surrogate key and return the normalized result.
`updates = none` models a null/undefined payload (`!updates` in JS).
The third component records the storage round-trips performed, in
order. -/
def updateConfig (siteId userId : String)
    (updates : Option (List (String × JsVal))) (s : Store) :
    Except String ConfigResult × Store × List DbEvent :=
  if siteId = "" then
    (Except.error "Invalid siteId: must be a non-empty string", s, [])
  else if userId = "" then
    (Except.error "Invalid userId: user authentication required", s, [])
  else
    match updates with
    | none => (Except.error "Invalid updates: must be an object", s, [])
    | some upd =>
      match s.sites.find? (fun r => r.site_id = siteId && r.user_id = userId) with
      | none => (Except.error "Site not found or access denied", s, [DbEvent.readSites])
      | some site =>
        if sanitizedKeys upd = [] then
          (Except.error "No valid fields to update", s, [DbEvent.readSites])
        else
          match s.site_configs.find? (fun c => c.site_id = site.id) with
          | none =>
            (Except.error
              "Failed to update config: JSON object requested, multiple (or no) rows returned",
             s, [DbEvent.readSites, DbEvent.writeConfigs])
          | some c =>
            let c2 := applySanitized c upd
            (Except.ok { site_id := siteId, config := _normalizeConfig c2 },
             { s with site_configs :=
                 s.site_configs.map (fun r => if r.site_id = site.id then c2 else r) },
             [DbEvent.readSites, DbEvent.writeConfigs])

/-- `find?` returns the given matching member when all matches in the
list are equal (the situation a SQL UNIQUE constraint guarantees). -/
theorem find_of_mem_unique {α : Type} (p : α → Bool) (l : List α)
    (hu : ∀ a ∈ l, ∀ b ∈ l, p a = true → p b = true → a = b)
    (a : α) (ha : a ∈ l) (hpa : p a = true) :
    l.find? p = some a := by
  induction l with
  | nil => cases ha
  | cons x xs ih =>
    by_cases hx : p x = true
    · have hxa : x = a := hu x (List.mem_cons_self x xs) a ha hx hpa
      rw [List.find?_cons_of_pos _ hx, hxa]
    · have hax : a ∈ xs := by
        rcases List.mem_cons.mp ha with h | h
        · exact absurd (h ▸ hpa) hx
        · exact h
      rw [List.find?_cons_of_neg _ hx]
      exact ih
        (fun a' ha' b hb => hu a' (List.mem_cons_of_mem _ ha') b (List.mem_cons_of_mem _ hb))
        hax

/-- C1: `authenticate` classifies every input exactly as specified — an
empty or absent credential yields `MissingCredential`; a non-empty
credential matching no row of the credentials collection yields
`InvalidCredential`; an underlying storage error during lookup yields
`ResolverUnavailable`, never `InvalidCredential`; and a found credential
yields `DisabledCredential` when `is_active` is false and otherwise
success carrying the bound caller identity (`user_id`) and the
credential id. -/
theorem C1_authenticate_classification
    (k : Option String) (db : Except Unit (List ApiKeyRow)) :
    ((k = none ∨ k = some "") → apiKeyAuth k db = AuthResult.missingCredential) ∧
    (∀ key, k = some key → key ≠ "" → ∀ e, db = Except.error e →
      apiKeyAuth k db = AuthResult.resolverUnavailable) ∧
    (∀ key rows, k = some key → key ≠ "" → db = Except.ok rows →
      (∀ r ∈ rows, r.api_key ≠ key) →
      apiKeyAuth k db = AuthResult.invalidCredential) ∧
    (∀ key rows r, k = some key → key ≠ "" → db = Except.ok rows →
      (∀ a ∈ rows, ∀ b ∈ rows, a.api_key = b.api_key → a = b) →
      r ∈ rows → r.api_key = key →
      apiKeyAuth k db =
        (if r.is_active then AuthResult.ok r.user_id r.id
         else AuthResult.disabledCredential)) := by
  refine ⟨?_, ?_, ?_, ?_⟩
  · rintro (rfl | rfl) <;> simp [apiKeyAuth]
  · rintro key rfl hk e rfl
    simp [apiKeyAuth, hk]
  · rintro key rows rfl hk rfl hnone
    have : rows.find? (fun r => r.api_key = key) = none := by
      rw [List.find?_eq_none]
      intro x hx
      simpa using hnone x hx
    simp [apiKeyAuth, hk, this]
  · rintro key rows r rfl hk rfl huniq hmem hkey
    have hfind : rows.find? (fun r => r.api_key = key) = some r := by
      refine find_of_mem_unique _ rows ?_ r hmem (by simpa using hkey)
      intro a ha b hb hpa hpb
      exact huniq a ha b hb
        (by rw [of_decide_eq_true hpa, of_decide_eq_true hpb])
    simp [apiKeyAuth, hk, hfind]

/-- Witness for C1: a concrete active credential authenticates as the
bound caller. -/
theorem C1_authenticate_classification_witness :
    apiKeyAuth (some "tok")
      (Except.ok [{ id := "kid", api_key := "tok", user_id := "usr",
                    is_active := true, expires_at := none }]) =
      AuthResult.ok "usr" "kid" := by
  have h := (C1_authenticate_classification (some "tok")
      (Except.ok [{ id := "kid", api_key := "tok", user_id := "usr",
                    is_active := true, expires_at := none }])).2.2.2
  have h2 := h "tok" _
      { id := "kid", api_key := "tok", user_id := "usr",
        is_active := true, expires_at := none }
      rfl (by decide) rfl (by intro a ha b hb _; simp at ha hb; rw [ha, hb])
      (by simp) rfl
  simpa using h2

/-- C5 counterexample: a credential whose `expires_at` (instant 0) lies
in the past of the lookup (instant 100) but whose `is_active` flag is
true authenticates successfully — the middleware never reads
`expires_at`, so the result is not `DisabledCredential` as the claim
requires. -/
theorem C5_expired_active_authenticates :
    (0 : Int) < 100 ∧
    apiKeyAuth (some "tok")
      (Except.ok [{ id := "kid", api_key := "tok", user_id := "usr",
                    is_active := true, expires_at := some 0 }]) =
      AuthResult.ok "usr" "kid" ∧
    apiKeyAuth (some "tok")
      (Except.ok [{ id := "kid", api_key := "tok", user_id := "usr",
                    is_active := true, expires_at := some 0 }]) ≠
      AuthResult.disabledCredential := by
  refine ⟨by decide, rfl, by decide⟩

/-- C5 amended: the middleware ignores `expires_at` entirely — the
authentication outcome is invariant under arbitrary rewrites of every
row's `expires_at` column, so classification depends only on lookup
success and `is_active`, and an expired but active credential
authenticates. -/
theorem C5_expiry_ignored (k : Option String) (rows : List ApiKeyRow)
    (f : ApiKeyRow → Option Int) :
    apiKeyAuth k
      (Except.ok (rows.map (fun r => { r with expires_at := f r }))) =
    apiKeyAuth k (Except.ok rows) := by
  cases k with
  | none => rfl
  | some key =>
    by_cases hk : key = ""
    · simp [apiKeyAuth, hk]
    · have hfind : (rows.map (fun r => ({ r with expires_at := f r } : ApiKeyRow))).find?
          (fun r => r.api_key = key) =
          (rows.find? (fun r => r.api_key = key)).map
            (fun r => { r with expires_at := f r }) := by
        rw [List.find?_map]
        rfl
      cases hr : rows.find? (fun r => r.api_key = key) with
      | none => simp [apiKeyAuth, hk, hfind, hr]
      | some r => cases hra : r.is_active <;> simp [apiKeyAuth, hk, hfind, hr, hra]

/-- A store holding one site, `site_id = "demo"` owned by `userX`, with
its default configuration — the state after `userX` first resolved
`"demo"`. -/
def crossCallerStore : Store :=
  { sites := [{ id := 0, site_id := "demo", user_id := "userX" }]
    site_configs := [defaultConfig 0]
    nextId := 1 }

/-- C2: the owner resolves `"demo"` fine, but a second caller `userY`
using the same site identifier cannot: the per-caller lookup misses
(isolation is intended), yet the INSERT hits the schema's global
`UNIQUE (site_id)` constraint, so `resolveConfig("demo", userY)` fails
instead of creating an isolated record — the claimed cross-caller
isolation does not hold on this schema. -/
theorem C2_cross_caller_collision :
    (getConfigBySiteId "demo" "userX" crossCallerStore).1 =
      Except.ok { site_id := "demo", config := _normalizeConfig (defaultConfig 0) } ∧
    (getConfigBySiteId "demo" "userY" crossCallerStore).1 =
      Except.error siteUniqueViolationMsg := by
  exact ⟨rfl, rfl⟩

/-- In a wellformed store, looking up a member site row by its own
`(site_id, user_id)` pair finds exactly that row. -/
theorem site_find_of_mem (s : Store) (hwf : s.WF) (site : SiteRow)
    (hmem : site ∈ s.sites) :
    s.sites.find? (fun r => r.site_id = site.site_id && r.user_id = site.user_id) =
      some site := by
  refine find_of_mem_unique _ _ ?_ site hmem (by simp)
  intro a ha b hb hpa hpb
  simp only [Bool.and_eq_true, decide_eq_true_eq] at hpa hpb
  exact hwf.2.2.1 a ha b hb (hpa.1.trans hpb.1.symm)

/-- In a wellformed store, looking up a member config row by its own
surrogate key finds exactly that row. -/
theorem config_find_of_mem (s : Store) (hwf : s.WF) (cfg : ConfigRow)
    (hmem : cfg ∈ s.site_configs) :
    s.site_configs.find? (fun c => c.site_id = cfg.site_id) = some cfg := by
  refine find_of_mem_unique _ _ ?_ cfg hmem (by simp)
  intro a ha b hb hpa hpb
  simp only [decide_eq_true_eq] at hpa hpb
  exact hwf.2.2.2.2 a ha b hb (hpa.trans hpb.symm)

/-- In a wellformed store no config row carries the yet-unissued
surrogate key `nextId`. -/
theorem config_find_fresh (s : Store) (hwf : s.WF) :
    s.site_configs.find? (fun c => c.site_id = s.nextId) = none := by
  rw [List.find?_eq_none]
  intro c hc
  obtain ⟨r, hr, hcr⟩ := hwf.2.2.2.1 c hc
  have hlt := hwf.1 r hr
  simp only [decide_eq_true_eq]
  omega

/-- When no site row carries the identifier, the per-caller lookup
misses. -/
theorem site_find_none_of_absent (s : Store) (siteId userId : String)
    (habs : ∀ r ∈ s.sites, r.site_id ≠ siteId) :
    s.sites.find? (fun r => r.site_id = siteId && r.user_id = userId) = none := by
  rw [List.find?_eq_none]
  intro r hr
  simp only [Bool.and_eq_true, decide_eq_true_eq, not_and]
  intro h
  exact absurd h (habs r hr)

/-- C6 amended: when the per-pair lookup misses in the snapshot read and
the INSERT is rejected by the `UNIQUE (site_id)` constraint in the
snapshot written, `_resolveSite` surfaces the wrapped storage error to
its caller — it performs no second lookup and never recovers the
now-present row. -/
theorem C6_creation_failure_surfaced (siteId userId : String) (s1 s2 : Store)
    (hmiss : ∀ r ∈ s1.sites, ¬(r.site_id = siteId ∧ r.user_id = userId))
    (hconf : ∃ r ∈ s2.sites, r.site_id = siteId) :
    _resolveSite siteId userId s1 s2 = Except.error siteUniqueViolationMsg := by
  have h1 : s1.sites.find? (fun r => r.site_id = siteId && r.user_id = userId) = none := by
    rw [List.find?_eq_none]
    intro r hr
    simp only [Bool.and_eq_true, decide_eq_true_eq]
    exact fun h => hmiss r hr ⟨h.1, h.2⟩
  have h2 : s2.sites.any (fun r => r.site_id = siteId) = true := by
    rw [List.any_eq_true]
    obtain ⟨r, hr, hrs⟩ := hconf
    exact ⟨r, hr, by simpa using hrs⟩
  simp [_resolveSite, h1, h2]

/-- Witness for C6 amended: the loser of a first-touch race (lookup saw
an empty table, insert ran after the winner committed the same pair)
gets the surfaced unique-violation error. -/
theorem C6_creation_failure_surfaced_witness :
    _resolveSite "demo" "userX"
      { sites := [], site_configs := [], nextId := 0 }
      { sites := [{ id := 0, site_id := "demo", user_id := "userX" }],
        site_configs := [defaultConfig 0], nextId := 1 } =
      Except.error siteUniqueViolationMsg :=
  C6_creation_failure_surfaced "demo" "userX" _ _ (by decide) (by decide)

/-- C6 counterexample: in that same lost race the claim demands the
operation return the now-present row's surrogate key (0); the code
instead surfaces the failure. -/
theorem C6_lost_race_counterexample :
    _resolveSite "demo" "userX"
      { sites := [], site_configs := [], nextId := 0 }
      { sites := [{ id := 0, site_id := "demo", user_id := "userX" }],
        site_configs := [defaultConfig 0], nextId := 1 } =
      Except.error siteUniqueViolationMsg ∧
    ∀ s : Store,
      _resolveSite "demo" "userX"
        { sites := [], site_configs := [], nextId := 0 }
        { sites := [{ id := 0, site_id := "demo", user_id := "userX" }],
          site_configs := [defaultConfig 0], nextId := 1 } ≠
        Except.ok (0, s) := by
  exact ⟨rfl, fun s h => by simp [_resolveSite] at h⟩

/-- C9: `updateConfig` never creates a site — whenever no site row
matches `(siteIdentifier, callerIdentity)`, whether the identifier is
unknown or the row belongs to a different caller, a non-empty payload
yields the single `Site not found or access denied` failure, the store
is untouched, and only the ownership SELECT ran; the failure value is
the same in both cases, making them indistinguishable to the caller. -/
theorem C9_update_never_creates (siteId userId : String)
    (upd : List (String × JsVal)) (s : Store)
    (hmiss : ∀ r ∈ s.sites, ¬(r.site_id = siteId ∧ r.user_id = userId))
    (hS : siteId ≠ "") (hU : userId ≠ "") :
    updateConfig siteId userId (some upd) s =
      (Except.error "Site not found or access denied", s, [DbEvent.readSites]) := by
  have h1 : s.sites.find? (fun r => r.site_id = siteId && r.user_id = userId) = none := by
    rw [List.find?_eq_none]
    intro r hr
    simp only [Bool.and_eq_true, decide_eq_true_eq]
    exact fun h => hmiss r hr ⟨h.1, h.2⟩
  simp [updateConfig, hS, hU, h1]

/-- Witness for C9: the same `SiteNotFound` result for a caller who
never resolved the site (empty store) and for a caller when the record
belongs to someone else. -/
theorem C9_update_never_creates_witness :
    updateConfig "demo" "userY" (some [("cursor_speed", JsVal.jnum 1)])
      { sites := [], site_configs := [], nextId := 0 } =
      (Except.error "Site not found or access denied",
       { sites := [], site_configs := [], nextId := 0 }, [DbEvent.readSites]) ∧
    updateConfig "demo" "userY" (some [("cursor_speed", JsVal.jnum 1)])
      { sites := [{ id := 0, site_id := "demo", user_id := "userX" }],
        site_configs := [defaultConfig 0], nextId := 1 } =
      (Except.error "Site not found or access denied",
       { sites := [{ id := 0, site_id := "demo", user_id := "userX" }],
         site_configs := [defaultConfig 0], nextId := 1 }, [DbEvent.readSites]) := by
  constructor
  · exact C9_update_never_creates "demo" "userY" _ _ (by decide) (by decide) (by decide)
  · exact C9_update_never_creates "demo" "userY" _ _ (by decide) (by decide) (by decide)

/-- No payload key is whitelisted (or the payload supplies only
`undefined`s) iff the sanitized remainder is empty. -/
theorem sanitizedKeys_eq_nil_of_no_allowed (upd : List (String × JsVal))
    (h : ∀ p ∈ upd, p.1 ∉ allowedFields) : sanitizedKeys upd = [] := by
  unfold sanitizedKeys
  rw [List.filter_eq_nil_iff]
  intro key hkey
  have hget : jsGet upd key = JsVal.undef := by
    unfold jsGet
    have hfind : upd.find? (fun p => p.1 = key) = none := by
      rw [List.find?_eq_none]
      intro p hp
      simp only [decide_eq_true_eq]
      exact fun hEq => h p hp (hEq ▸ hkey)
    rw [hfind]
  simp [hget]

/-- C7 counterexample: the claim fails in both of its parts.  With the
site present, the empty update is indeed rejected, but only after the
site-ownership SELECT has run — the storage trace is `[readSites]`, not
empty.  And when the named site does not exist for the caller, the empty
update yields `SiteNotFound`, not the EmptyUpdate kind. -/
theorem C7_empty_update_counterexample :
    updateConfig "demo" "userX" (some [])
      { sites := [{ id := 0, site_id := "demo", user_id := "userX" }],
        site_configs := [defaultConfig 0], nextId := 1 } =
      (Except.error "No valid fields to update",
       { sites := [{ id := 0, site_id := "demo", user_id := "userX" }],
         site_configs := [defaultConfig 0], nextId := 1 }, [DbEvent.readSites]) ∧
    ([DbEvent.readSites] : List DbEvent) ≠ [] ∧
    (updateConfig "demo" "userY" (some [])
      { sites := [], site_configs := [], nextId := 0 }).1 =
      Except.error "Site not found or access denied" := by
  exact ⟨rfl, by decide, rfl⟩

/-- C7 amended: for a caller owning the named site, an empty update
mapping is rejected with the `No valid fields to update` failure (the
EmptyUpdate kind) and nothing is written — but the rejection happens
only after the site-ownership SELECT, so exactly one storage read
occurs; and when no matching site exists, `SiteNotFound` is returned
instead. -/
theorem C7_empty_update_rejected_after_read (s : Store) (site : SiteRow)
    (hwf : s.WF) (hmem : site ∈ s.sites)
    (hS : site.site_id ≠ "") (hU : site.user_id ≠ "") :
    updateConfig site.site_id site.user_id (some []) s =
      (Except.error "No valid fields to update", s, [DbEvent.readSites]) := by
  have h1 := site_find_of_mem s hwf site hmem
  simp [updateConfig, hS, hU, h1, sanitizedKeys, allowedFields, jsGet]

/-- Witness for C7 amended, at a one-site store. -/
theorem C7_empty_update_rejected_after_read_witness :
    updateConfig "demo" "userX" (some [])
      { sites := [{ id := 0, site_id := "demo", user_id := "userX" }],
        site_configs := [defaultConfig 0], nextId := 1 } =
      (Except.error "No valid fields to update",
       { sites := [{ id := 0, site_id := "demo", user_id := "userX" }],
         site_configs := [defaultConfig 0], nextId := 1 }, [DbEvent.readSites]) :=
  C7_empty_update_rejected_after_read _
    { id := 0, site_id := "demo", user_id := "userX" }
    (by decide) (by decide) (by decide) (by decide)

/-- C8 counterexample: for a caller owning a resolved site, a non-empty
payload containing no whitelisted key is rejected with the
`No valid fields to update` failure — the operation does not succeed as
a permissive no-op. -/
theorem C8_unrecognized_update_counterexample :
    updateConfig "demo" "userX" (some [("unsupported_field", JsVal.jstr "x")])
      { sites := [{ id := 0, site_id := "demo", user_id := "userX" }],
        site_configs := [defaultConfig 0], nextId := 1 } =
      (Except.error "No valid fields to update",
       { sites := [{ id := 0, site_id := "demo", user_id := "userX" }],
         site_configs := [defaultConfig 0], nextId := 1 }, [DbEvent.readSites]) ∧
    ∀ res : ConfigResult,
      (updateConfig "demo" "userX" (some [("unsupported_field", JsVal.jstr "x")])
        { sites := [{ id := 0, site_id := "demo", user_id := "userX" }],
          site_configs := [defaultConfig 0], nextId := 1 }).1 ≠ Except.ok res := by
  refine ⟨rfl, fun res h => ?_⟩
  rw [show (updateConfig "demo" "userX" (some [("unsupported_field", JsVal.jstr "x")])
      { sites := [{ id := 0, site_id := "demo", user_id := "userX" }],
        site_configs := [defaultConfig 0], nextId := 1 }).1 =
      Except.error "No valid fields to update" from rfl] at h
  exact Except.noConfusion h

/-- C8 amended: a non-empty update whose keys all miss the whitelist is
rejected exactly like the empty update — `No valid fields to update`,
store untouched, only the ownership SELECT performed — rather than
succeeding as a no-op. -/
theorem C8_unrecognized_update_rejected (s : Store) (site : SiteRow)
    (upd : List (String × JsVal))
    (hwf : s.WF) (hmem : site ∈ s.sites)
    (hS : site.site_id ≠ "") (hU : site.user_id ≠ "")
    (_hne : upd ≠ []) (hkeys : ∀ p ∈ upd, p.1 ∉ allowedFields) :
    updateConfig site.site_id site.user_id (some upd) s =
      (Except.error "No valid fields to update", s, [DbEvent.readSites]) := by
  have h1 := site_find_of_mem s hwf site hmem
  have h2 := sanitizedKeys_eq_nil_of_no_allowed upd hkeys
  simp [updateConfig, hS, hU, h1, h2]

/-- Witness for C8 amended, at a one-site store with an alien key. -/
theorem C8_unrecognized_update_rejected_witness :
    updateConfig "demo" "userX" (some [("unsupported_field", JsVal.jstr "x")])
      { sites := [{ id := 0, site_id := "demo", user_id := "userX" }],
        site_configs := [defaultConfig 0], nextId := 1 } =
      (Except.error "No valid fields to update",
       { sites := [{ id := 0, site_id := "demo", user_id := "userX" }],
         site_configs := [defaultConfig 0], nextId := 1 }, [DbEvent.readSites]) :=
  C8_unrecognized_update_rejected _
    { id := 0, site_id := "demo", user_id := "userX" } _
    (by decide) (by decide) (by decide) (by decide) (by decide) (by decide)

/-- The all-defaults seven-field configuration object of spec §3. -/
def defaultNormalized : NormalizedConfig :=
  { cursor_mode_enabled := JsVal.jbool false
    cursor_speed := JsVal.jnum 10
    scroll_speed := JsVal.jnum 10
    accessibility_profile := JsVal.jstr "standard"
    enter_hold_ms := JsVal.jnum 1000
    exit_hold_ms := JsVal.jnum 800
    click_cooldown_ms := JsVal.jnum 300 }

/-- The store state after a successful first-touch resolution: the new
site row with the next surrogate key plus its default config row. -/
def firstTouch (siteId userId : String) (s : Store) : Store :=
  { sites := s.sites ++ [{ id := s.nextId, site_id := siteId, user_id := userId }]
    site_configs := s.site_configs ++ [defaultConfig s.nextId]
    nextId := s.nextId + 1 }

/-- C3 counterexample: the pair `("demo", userY)` was never seen before
(no site row carries it), yet `resolveConfig` fails instead of
returning the all-defaults configuration, because `"demo"` is already
taken by `userX` under the global `UNIQUE (site_id)` constraint. -/
theorem C3_fresh_pair_counterexample :
    (∀ r ∈ ({ sites := [{ id := 0, site_id := "demo", user_id := "userX" }],
              site_configs := [defaultConfig 0], nextId := 1 } : Store).sites,
        ¬(r.site_id = "demo" ∧ r.user_id = "userY")) ∧
    (getConfigBySiteId "demo" "userY"
      { sites := [{ id := 0, site_id := "demo", user_id := "userX" }],
        site_configs := [defaultConfig 0], nextId := 1 }).1 =
      Except.error siteUniqueViolationMsg := by
  exact ⟨by decide, rfl⟩

/-- C3 amended: for every valid pair whose site identifier no caller has
ever used, `resolveConfig` succeeds with the configuration equal to the
all-defaults seven-field object, and a second call with the same pair
returns the identical result while leaving the store exactly as the
first call left it (defaults are substituted at read time, not by
mutating storage). -/
theorem C3_first_resolution_defaults (siteId userId : String) (s : Store)
    (hwf : s.WF) (habs : ∀ r ∈ s.sites, r.site_id ≠ siteId)
    (hS : siteId ≠ "") (hU : userId ≠ "") :
    getConfigBySiteId siteId userId s =
      (Except.ok { site_id := siteId, config := defaultNormalized },
       firstTouch siteId userId s) ∧
    getConfigBySiteId siteId userId (firstTouch siteId userId s) =
      (Except.ok { site_id := siteId, config := defaultNormalized },
       firstTouch siteId userId s) := by
  have h1 := site_find_none_of_absent s siteId userId habs
  have h2 : s.sites.any (fun r => r.site_id = siteId) = false := by
    rw [List.any_eq_false]
    intro r hr
    simpa using habs r hr
  have h3 := config_find_fresh s hwf
  constructor
  · simp [getConfigBySiteId, _resolveSite, _resolveSiteConfig, hS, hU, h1, h2, h3,
      firstTouch, defaultNormalized, _normalizeConfig, defaultConfig, nullish]
  · have h4 : (s.sites ++ [({ id := s.nextId, site_id := siteId, user_id := userId } : SiteRow)]).find?
        (fun r => r.site_id = siteId && r.user_id = userId) =
        some ({ id := s.nextId, site_id := siteId, user_id := userId } : SiteRow) := by
      rw [List.find?_append, h1]
      simp
    have h5 : (s.site_configs ++ [defaultConfig s.nextId]).find?
        (fun c => c.site_id = s.nextId) = some (defaultConfig s.nextId) := by
      rw [List.find?_append, h3]
      simp [defaultConfig]
    simp [getConfigBySiteId, _resolveSite, _resolveSiteConfig, hS, hU, firstTouch,
      h1, h2, h3, h4, h5, defaultNormalized, _normalizeConfig, defaultConfig, nullish]

/-- Witness for C3 amended: first touch of `"demo"` by `u1` on the empty
store yields the all-defaults configuration, and so does the repeat
call. -/
theorem C3_first_resolution_defaults_witness :
    getConfigBySiteId "demo" "u1" { sites := [], site_configs := [], nextId := 0 } =
      (Except.ok { site_id := "demo", config := defaultNormalized },
       firstTouch "demo" "u1" { sites := [], site_configs := [], nextId := 0 }) ∧
    getConfigBySiteId "demo" "u1"
        (firstTouch "demo" "u1" { sites := [], site_configs := [], nextId := 0 }) =
      (Except.ok { site_id := "demo", config := defaultNormalized },
       firstTouch "demo" "u1" { sites := [], site_configs := [], nextId := 0 }) :=
  C3_first_resolution_defaults "demo" "u1" _
    (by decide) (by decide) (by decide) (by decide)

/-- The store after `updateConfig`'s UPDATE statement: every config row
keyed by the surrogate key `i` is replaced by the updated row. -/
def replaceConfig (s : Store) (i : Nat) (c2 : ConfigRow) : Store :=
  { s with site_configs := s.site_configs.map (fun r => if r.site_id = i then c2 else r) }

/-- After the UPDATE keyed by `i`, looking `i` up again finds the
updated row (provided some row was keyed by `i` before and the updated
row keeps the key). -/
theorem find_config_replace (l : List ConfigRow) (i : Nat) (c2 : ConfigRow)
    (h2 : c2.site_id = i) (c : ConfigRow)
    (hf : l.find? (fun r => r.site_id = i) = some c) :
    (l.map (fun r => if r.site_id = i then c2 else r)).find?
      (fun r => r.site_id = i) = some c2 := by
  induction l with
  | nil => simp at hf
  | cons x xs ih =>
    by_cases hx : x.site_id = i
    · simp only [List.map_cons, if_pos hx]
      rw [List.find?_cons_of_pos _ (by simpa using h2)]
    · rw [List.find?_cons_of_neg _ (by simpa using hx)] at hf
      simp only [List.map_cons, if_neg hx]
      rw [List.find?_cons_of_neg _ (by simpa using hx)]
      exact ih hf

/-- The spec §8 round-trip payload: two whitelisted fields plus an alien
key. -/
def roundTripPayload : List (String × JsVal) :=
  [("cursor_speed", JsVal.jnum 15), ("scroll_speed", JsVal.jnum 20),
   ("unsupported_field", JsVal.jstr "x")]

/-- The stored row after applying the round-trip payload: only the two
whitelisted fields change; the alien key has no column to land in. -/
def roundTripUpdated (cfg : ConfigRow) : ConfigRow :=
  { cfg with cursor_speed := JsVal.jnum 15, scroll_speed := JsVal.jnum 20 }

/-- C4: for a caller owning a resolved site,
`updateConfig(site, caller, {cursor_speed:15, scroll_speed:20, unsupported_field:"x"})`
succeeds; the stored row and the returned configuration take the two
supplied whitelisted values with every other configuration field
unchanged, the alien key is dropped (the row has no such column), and a
subsequent `resolveConfig` returns that same updated configuration. -/
theorem C4_whitelist_roundtrip (s : Store) (site : SiteRow) (cfg : ConfigRow)
    (hwf : s.WF) (hsite : site ∈ s.sites) (hcfg : cfg ∈ s.site_configs)
    (hkey : cfg.site_id = site.id) (hS : site.site_id ≠ "") (hU : site.user_id ≠ "") :
    updateConfig site.site_id site.user_id (some roundTripPayload) s =
      (Except.ok { site_id := site.site_id,
                   config := _normalizeConfig (roundTripUpdated cfg) },
       replaceConfig s site.id (roundTripUpdated cfg),
       [DbEvent.readSites, DbEvent.writeConfigs]) ∧
    getConfigBySiteId site.site_id site.user_id
        (replaceConfig s site.id (roundTripUpdated cfg)) =
      (Except.ok { site_id := site.site_id,
                   config := _normalizeConfig (roundTripUpdated cfg) },
       replaceConfig s site.id (roundTripUpdated cfg)) ∧
    (_normalizeConfig (roundTripUpdated cfg)).cursor_speed = JsVal.jnum 15 ∧
    (_normalizeConfig (roundTripUpdated cfg)).scroll_speed = JsVal.jnum 20 ∧
    (_normalizeConfig (roundTripUpdated cfg)).cursor_mode_enabled =
      (_normalizeConfig cfg).cursor_mode_enabled ∧
    (_normalizeConfig (roundTripUpdated cfg)).accessibility_profile =
      (_normalizeConfig cfg).accessibility_profile ∧
    (_normalizeConfig (roundTripUpdated cfg)).enter_hold_ms =
      (_normalizeConfig cfg).enter_hold_ms ∧
    (_normalizeConfig (roundTripUpdated cfg)).exit_hold_ms =
      (_normalizeConfig cfg).exit_hold_ms ∧
    (_normalizeConfig (roundTripUpdated cfg)).click_cooldown_ms =
      (_normalizeConfig cfg).click_cooldown_ms := by
  have hfindsite := site_find_of_mem s hwf site hsite
  have hfindcfg : s.site_configs.find? (fun c => c.site_id = site.id) = some cfg := by
    have h := config_find_of_mem s hwf cfg hcfg
    rwa [hkey] at h
  have happly : applySanitized cfg roundTripPayload = roundTripUpdated cfg := rfl
  have hsan : sanitizedKeys roundTripPayload = ["cursor_speed", "scroll_speed"] := rfl
  refine ⟨?_, ?_, rfl, rfl, rfl, rfl, rfl, rfl, rfl⟩
  · simp [updateConfig, hS, hU, hfindsite, hsan, hfindcfg, happly, replaceConfig]
  · have hfind2 := find_config_replace s.site_configs site.id (roundTripUpdated cfg)
      (by simp [roundTripUpdated, hkey]) cfg hfindcfg
    simp [getConfigBySiteId, _resolveSite, _resolveSiteConfig, hS, hU,
      replaceConfig, hfindsite, hfind2]

/-- Witness for C4: the round-trip payload applied to a freshly resolved
one-site store. -/
theorem C4_whitelist_roundtrip_witness :
    updateConfig "demo" "u1" (some roundTripPayload)
      { sites := [{ id := 0, site_id := "demo", user_id := "u1" }],
        site_configs := [defaultConfig 0], nextId := 1 } =
      (Except.ok { site_id := "demo",
                   config := _normalizeConfig (roundTripUpdated (defaultConfig 0)) },
       replaceConfig
         { sites := [{ id := 0, site_id := "demo", user_id := "u1" }],
           site_configs := [defaultConfig 0], nextId := 1 } 0
         (roundTripUpdated (defaultConfig 0)),
       [DbEvent.readSites, DbEvent.writeConfigs]) :=
  (C4_whitelist_roundtrip _ { id := 0, site_id := "demo", user_id := "u1" }
    (defaultConfig 0) (by decide) (by decide) (by decide) (by decide)
    (by decide) (by decide)).1

/-- The stored row after updating `cursor_speed` to JS `null`: the null
is stored verbatim. -/
def nullUpdated (cfg : ConfigRow) : ConfigRow :=
  { cfg with cursor_speed := JsVal.jnull }

/-- C10: a whitelisted field mapped to `undefined` is dropped by the
`!== undefined` filter — supplying only it behaves exactly like the
empty update — whereas the same field mapped to `null` survives the
filter, is stored verbatim as `null`, and both the configuration
returned by `updateConfig` and the one returned by a subsequent
`resolveConfig` show the field restored to its default by
normalization. -/
theorem C10_null_vs_undefined (s : Store) (site : SiteRow) (cfg : ConfigRow)
    (hwf : s.WF) (hsite : site ∈ s.sites) (hcfg : cfg ∈ s.site_configs)
    (hkey : cfg.site_id = site.id) (hS : site.site_id ≠ "") (hU : site.user_id ≠ "") :
    updateConfig site.site_id site.user_id (some [("cursor_speed", JsVal.undef)]) s =
      (Except.error "No valid fields to update", s, [DbEvent.readSites]) ∧
    updateConfig site.site_id site.user_id (some [("cursor_speed", JsVal.jnull)]) s =
      (Except.ok { site_id := site.site_id,
                   config := _normalizeConfig (nullUpdated cfg) },
       replaceConfig s site.id (nullUpdated cfg),
       [DbEvent.readSites, DbEvent.writeConfigs]) ∧
    (nullUpdated cfg).cursor_speed = JsVal.jnull ∧
    (_normalizeConfig (nullUpdated cfg)).cursor_speed = JsVal.jnum 10 ∧
    getConfigBySiteId site.site_id site.user_id
        (replaceConfig s site.id (nullUpdated cfg)) =
      (Except.ok { site_id := site.site_id,
                   config := _normalizeConfig (nullUpdated cfg) },
       replaceConfig s site.id (nullUpdated cfg)) := by
  have hfindsite := site_find_of_mem s hwf site hsite
  have hfindcfg : s.site_configs.find? (fun c => c.site_id = site.id) = some cfg := by
    have h := config_find_of_mem s hwf cfg hcfg
    rwa [hkey] at h
  refine ⟨?_, ?_, rfl, rfl, ?_⟩
  · have hsan : sanitizedKeys [("cursor_speed", JsVal.undef)] = [] := rfl
    simp [updateConfig, hS, hU, hfindsite, hsan]
  · have hsan : sanitizedKeys [("cursor_speed", JsVal.jnull)] = ["cursor_speed"] := rfl
    have happly : applySanitized cfg [("cursor_speed", JsVal.jnull)] = nullUpdated cfg := rfl
    simp [updateConfig, hS, hU, hfindsite, hsan, hfindcfg, happly, replaceConfig]
  · have hfind2 := find_config_replace s.site_configs site.id (nullUpdated cfg)
      (by simp [nullUpdated, hkey]) cfg hfindcfg
    simp [getConfigBySiteId, _resolveSite, _resolveSiteConfig, hS, hU,
      replaceConfig, hfindsite, hfind2]

/-- Witness for C10: nulling `cursor_speed` on a freshly resolved store
succeeds, and the returned configuration shows the default 10. -/
theorem C10_null_vs_undefined_witness :
    updateConfig "demo" "u1" (some [("cursor_speed", JsVal.jnull)])
      { sites := [{ id := 0, site_id := "demo", user_id := "u1" }],
        site_configs := [defaultConfig 0], nextId := 1 } =
      (Except.ok { site_id := "demo",
                   config := _normalizeConfig (nullUpdated (defaultConfig 0)) },
       replaceConfig
         { sites := [{ id := 0, site_id := "demo", user_id := "u1" }],
           site_configs := [defaultConfig 0], nextId := 1 } 0
         (nullUpdated (defaultConfig 0)),
       [DbEvent.readSites, DbEvent.writeConfigs]) ∧
    (_normalizeConfig (nullUpdated (defaultConfig 0))).cursor_speed = JsVal.jnum 10 := by
  have h := C10_null_vs_undefined
    { sites := [{ id := 0, site_id := "demo", user_id := "u1" }],
      site_configs := [defaultConfig 0], nextId := 1 }
    { id := 0, site_id := "demo", user_id := "u1" }
    (defaultConfig 0) (by decide) (by decide) (by decide) (by decide)
    (by decide) (by decide)
  exact ⟨h.2.1, h.2.2.2.1⟩
